import Mathlib

/-!
# Verification of the ansible-github reconciliation modules

Shallow embedding of the desired-state / remote-state reconciliation code in
`plugins/module_utils/ghutil.py`, `plugins/module_utils/runner.py`,
`plugins/modules/label.py`, `plugins/modules/repository.py` and
`plugins/modules/secrets.py`, together with theorems settling the behavioural
claims about field comparison, payload construction, the named state
transitions and the task-runner error boundary.

Python dictionaries of configuration fields are modelled as association lists
`List (String × PyVal)`; dataclass instances as structures whose `fields`
function lists `self.__dict__.items()` in declaration order; exceptions as
`Except PyErr`; the external PyGithub adapter as an explicit record of
functions, with every mutating call recorded in a trace.
-/

/-- A Python value as it occurs in the configuration dataclasses: strings,
booleans, `None`, the `Ellipsis` literal `...`, and the PyGithub `NotSet`
sentinel. -/
inductive PyVal where
  | vStr (s : String)
  | vBool (b : Bool)
  | vNone
  | vEllipsis
  | vNotSet
  deriving DecidableEq, Repr

/-- Python `==` on the modelled values (structural equality on these types). -/
def pyEq (a b : PyVal) : Bool := a = b

/-- A Python dict / the `__dict__` of a dataclass: an association list of
field name to value, keys unique for the dataclasses modelled here. -/
abbrev PyDict := List (String × PyVal)

/-- Python `d[k]` / `k in d` membership: first binding of the key, if any. -/
def dictLookup (d : PyDict) (k : String) : Option PyVal :=
  match d with
  | [] => none
  | (k2, v) :: rest => if k2 = k then some v else dictLookup rest k

/-- Python `d.pop(k, None)` applied for its removal effect: the dict without
any binding of `k`. -/
def dictPop (d : PyDict) (k : String) : PyDict :=
  d.filter (fun kv => kv.1 ≠ k)

/-- `GithubObjectConfig.__iter__` (ghutil.py): yields every field of
`self.__dict__`, replacing a value that is `None` or `...` with `NotSet`. -/
def configIter (fields : PyDict) : PyDict :=
  fields.map (fun kv =>
    (kv.1,
     if kv.2 = PyVal.vNone then PyVal.vNotSet
     else if kv.2 = PyVal.vEllipsis then PyVal.vNotSet
     else kv.2))

/-- `GithubObjectConfig.asdict` (ghutil.py): `dict(self)`, i.e. the dict built
from `__iter__`. -/
def configAsdict (fields : PyDict) : PyDict :=
  configIter fields

/-- The dict-comparison loop inside `GithubObjectConfig.__eq__` (ghutil.py):
for each `(key, val)` yielded by `__iter__`, skip when `val == NotSet`, skip
when `key not in other`, report `False` when `other[key] != val`; reaching the
end of the loop yields `True`. -/
def configEqDict (fields : PyDict) (other : PyDict) : Bool :=
  (configIter fields).all (fun kv =>
    if pyEq kv.2 PyVal.vNotSet then true
    else
      match dictLookup other kv.1 with
      | none => true
      | some w => pyEq w kv.2)

/-- The `other` argument of `GithubObjectConfig.__eq__`: another config, a
PyGithub `GithubObject` (compared through its `raw_data`), a plain dict,
Python `None`, or any other value. -/
inductive EqOther where
  | config (fields : PyDict)
  | ghObject (rawData : PyDict)
  | dict (d : PyDict)
  | pyNone
  | otherValue
  deriving Repr

/-- `GithubObjectConfig.__eq__` (ghutil.py): dispatches on the type of
`other`; a config is compared via its `asdict()`, a `GithubObject` via its
`raw_data`, a dict via the field loop; any other value — `None` included —
falls through to the final `return True`. -/
def configEq (fields : PyDict) : EqOther → Bool
  | EqOther.config c => configEqDict fields (configAsdict c)
  | EqOther.ghObject raw => configEqDict fields raw
  | EqOther.dict d => configEqDict fields d
  | EqOther.pyNone => true
  | EqOther.otherValue => true

/-- `GithubObjectConfig.__ne__` (ghutil.py): `not self.__eq__(other)`. -/
def configNe (fields : PyDict) (other : EqOther) : Bool :=
  ! configEq fields other

/-- A raised Python exception, as the reconciliation code distinguishes them:
`ValueError` (validation), `AttributeError` (e.g. `None.raw_data`), and
the PyGithub `GithubException` with status and data. -/
inductive PyErr where
  | valueError (msg : String)
  | attributeError (msg : String)
  | githubException (status : Nat) (data : String)
  deriving DecidableEq, Repr

/-- `label_color_re.match` (label.py): `re.match` of `^[0-9a-fA-F]{6}$`, which
accepts six hexadecimal digits, optionally followed by one trailing newline
(the Python `$` matches before a final newline). -/
def labelColorMatch (s : String) : Bool :=
  let cs := s.toList
  let hex := fun c : Char =>
    (('0' ≤ c && c ≤ '9') || ('a' ≤ c && c ≤ 'f') || ('A' ≤ c && c ≤ 'F'))
  ((cs.length == 6) && cs.all hex)
    || ((cs.length == 7) && (cs.take 6).all hex && ((cs.getLast? == some '\n') : Bool))

/-- `LabelConfig` (label.py): dataclass with fields `name`, `color`
(default `"cccccc"`), `description` (default `None`). -/
structure LabelConfig where
  name : String
  color : String
  description : PyVal
  deriving Repr

/-- `self.__dict__.items()` of a `LabelConfig`, in dataclass field order. -/
def LabelConfig.fields (c : LabelConfig) : PyDict :=
  [("name", PyVal.vStr c.name), ("color", PyVal.vStr c.color),
   ("description", c.description)]

/-- `LabelConfig.__init__` + `__post_init__` (label.py): raises `ValueError`
when `color` is `None` or does not match the hex-color pattern; otherwise the
configured instance is produced. -/
def mkLabelConfig (name : String) (color : Option String) (description : PyVal) :
    Except PyErr LabelConfig :=
  match color with
  | none => .error (.valueError "color cannot be None")
  | some s =>
      if labelColorMatch s then .ok ⟨name, s, description⟩
      else .error (.valueError "color must be a valid hex color")

/-- `RepositoryConfig` (repository.py): dataclass with `name` plus the
optional fields, each defaulting to `None`. The Python keyword field
`private` is rendered `private_` here. -/
structure RepositoryConfig where
  name : String
  description : PyVal := PyVal.vNone
  private_ : PyVal := PyVal.vNone
  homepage : PyVal := PyVal.vNone
  auto_init : PyVal := PyVal.vNone
  has_issues : PyVal := PyVal.vNone
  has_wiki : PyVal := PyVal.vNone
  has_projects : PyVal := PyVal.vNone
  has_downloads : PyVal := PyVal.vNone
  allow_merge_commit : PyVal := PyVal.vNone
  allow_squash_merge : PyVal := PyVal.vNone
  allow_rebase_merge : PyVal := PyVal.vNone
  delete_branch_on_merge : PyVal := PyVal.vNone
  deriving Repr

/-- `self.__dict__.items()` of a `RepositoryConfig`, in dataclass field
order. -/
def RepositoryConfig.fields (c : RepositoryConfig) : PyDict :=
  [("name", PyVal.vStr c.name), ("description", c.description),
   ("private", c.private_), ("homepage", c.homepage),
   ("auto_init", c.auto_init), ("has_issues", c.has_issues),
   ("has_wiki", c.has_wiki), ("has_projects", c.has_projects),
   ("has_downloads", c.has_downloads),
   ("allow_merge_commit", c.allow_merge_commit),
   ("allow_squash_merge", c.allow_squash_merge),
   ("allow_rebase_merge", c.allow_rebase_merge),
   ("delete_branch_on_merge", c.delete_branch_on_merge)]

/-- One mutating call made through the PyGithub adapter. -/
inductive AdapterCall where
  | createCall (payload : PyDict)
  | editCall (payload : PyDict)
  | deleteCall
  deriving DecidableEq, Repr

/-- A transition result dict: the `changed` flag and, for transitions that
report the resource, its `raw_data`. -/
structure TransResult where
  changed : Bool
  resource : Option PyDict := none
  deriving DecidableEq, Repr

/-- The external PyGithub behaviour the label manager calls into:
`create_label` returns the created label `raw_data`; `label.edit` updates
the label `raw_data` from its current value and the payload. -/
structure LabelAdapter where
  createLabel : PyDict → PyDict
  editLabel : PyDict → PyDict → PyDict

/-- The external PyGithub behaviour the repository manager calls into. -/
structure RepoAdapter where
  createRepo : PyDict → PyDict
  editRepo : PyDict → PyDict → PyDict

/-- `LabelManager.absent` (label.py): fetch the label; `None` means
`{changed: False}` with no further call; otherwise delete it unless
`check_mode`, reporting `{changed: True}`. `remote` is the fetched label
`raw_data`, `none` when `get` returned `None`. -/
def labelAbsent (remote : Option PyDict) (check_mode : Bool) :
    List AdapterCall × TransResult :=
  match remote with
  | none => ([], { changed := false })
  | some _ =>
      if check_mode then ([], { changed := true })
      else ([AdapterCall.deleteCall], { changed := true })

/-- `RepositoryManager.absent` (repository.py): same shape as the label
transition — missing repository reports `{changed: False}` with no call. -/
def repoAbsent (remote : Option PyDict) (check_mode : Bool) :
    List AdapterCall × TransResult :=
  match remote with
  | none => ([], { changed := false })
  | some _ =>
      if check_mode then ([], { changed := true })
      else ([AdapterCall.deleteCall], { changed := true })

/-- `RepositoryManager.archived` (repository.py), transliterated: when
`repo.archived` is falsy the transition returns `{changed: False}` at once;
otherwise it calls `repo.edit(archived=True)` unless `check_mode` and reports
`{changed: True}`. `archived` is the fetched repository flag. -/
def repoArchived (archived : Bool) (check_mode : Bool) :
    List AdapterCall × TransResult :=
  if !archived then ([], { changed := false })
  else if check_mode then ([], { changed := true })
  else ([AdapterCall.editCall [("archived", PyVal.vBool true)]],
        { changed := true })

/-- `LabelManager.present` (label.py): create when missing, edit when the
config does not match, else leave untouched; the trailing
`result["label"] = label.raw_data` raises `AttributeError` when the label is
still `None` (missing resource under `check_mode`). -/
def labelPresent (A : LabelAdapter) (cfg : LabelConfig) (remote : Option PyDict)
    (check_mode : Bool) : List AdapterCall × Except PyErr TransResult :=
  let new_data := configAsdict cfg.fields
  match remote with
  | none =>
      if check_mode then
        ([], .error (.attributeError "NoneType object has no attribute raw_data"))
      else
        ([AdapterCall.createCall new_data],
         .ok { changed := true, resource := some (A.createLabel new_data) })
  | some raw =>
      if configNe cfg.fields (EqOther.ghObject raw) then
        if check_mode then ([], .ok { changed := true, resource := some raw })
        else
          ([AdapterCall.editCall new_data],
           .ok { changed := true, resource := some (A.editLabel raw new_data) })
      else ([], .ok { changed := false, resource := some raw })

/-- `RepositoryManager.present` (repository.py): create when missing, never
edit an existing repository; the trailing `result["repo"] = repo.raw_data`
raises `AttributeError` when the repository is still `None` (missing resource
under `check_mode`). -/
def repoPresent (A : RepoAdapter) (cfg : RepositoryConfig) (remote : Option PyDict)
    (check_mode : Bool) : List AdapterCall × Except PyErr TransResult :=
  let new_data := configAsdict cfg.fields
  match remote with
  | none =>
      if check_mode then
        ([], .error (.attributeError "NoneType object has no attribute raw_data"))
      else
        ([AdapterCall.createCall new_data],
         .ok { changed := true, resource := some (A.createRepo new_data) })
  | some raw => ([], .ok { changed := false, resource := some raw })

/-- `RepositoryManager.replace` (repository.py): create when missing; then,
whenever `config != repo`, pop the create-only `auto_init` from the payload
and edit unless `check_mode`; finally report `repo.raw_data`, which raises
`AttributeError` when the repository is still `None`. -/
def repoReplace (A : RepoAdapter) (cfg : RepositoryConfig) (remote : Option PyDict)
    (check_mode : Bool) : List AdapterCall × Except PyErr TransResult :=
  let new_data := configAsdict cfg.fields
  let step1 : List AdapterCall × Option PyDict × Bool :=
    match remote with
    | none =>
        if check_mode then ([], none, true)
        else ([AdapterCall.createCall new_data], some (A.createRepo new_data), true)
    | some raw => ([], some raw, false)
  let (calls1, repo1, changed1) := step1
  let other := match repo1 with
    | none => EqOther.pyNone
    | some raw => EqOther.ghObject raw
  if configNe cfg.fields other then
    let edit_data := dictPop new_data "auto_init"
    let (calls2, repo2) :=
      if check_mode then (([] : List AdapterCall), repo1)
      else ([AdapterCall.editCall edit_data],
            repo1.map (fun raw => A.editRepo raw edit_data))
    match repo2 with
    | none =>
        (calls1 ++ calls2,
         .error (.attributeError "NoneType object has no attribute raw_data"))
    | some raw => (calls1 ++ calls2, .ok { changed := true, resource := some raw })
  else
    match repo1 with
    | none =>
        (calls1, .error (.attributeError "NoneType object has no attribute raw_data"))
    | some raw => (calls1, .ok { changed := changed1, resource := some raw })

/-- An observable step of one module invocation, in order of occurrence:
the network activity of `LabelManager.__init__` (`ghconnect` plus
`owner.get_repo` on the owning repository), the `get_label` fetch inside
`LabelManager.get`, and the mutating adapter calls. -/
inductive RunEvent where
  | netConnectRepo
  | netFindLabel (name : String)
  | mutation (c : AdapterCall)
  deriving DecidableEq, Repr

/-- `LabelRunner.apply` (label.py), with its event trace: the manager is
constructed first (network: connect and fetch the owning repository), the
`LabelConfig` is built — and validated — after that, and only then is the
selected transition dispatched. -/
def labelRunnerApply (A : LabelAdapter) (state : String) (name : String)
    (color : Option String) (description : PyVal) (remote : Option PyDict)
    (check_mode : Bool) : List RunEvent × Except PyErr TransResult :=
  let connectEvents := [RunEvent.netConnectRepo]
  match mkLabelConfig name color description with
  | .error e => (connectEvents, .error e)
  | .ok cfg =>
      if state = "absent" then
        let (calls, res) := labelAbsent remote check_mode
        (connectEvents ++ [RunEvent.netFindLabel cfg.name]
           ++ calls.map RunEvent.mutation, .ok res)
      else if state = "present" then
        let (calls, res) := labelPresent A cfg remote check_mode
        (connectEvents ++ [RunEvent.netFindLabel cfg.name]
           ++ calls.map RunEvent.mutation, res)
      else
        (connectEvents, .error (.valueError "local variable referenced before assignment"))

/-- `SecretsRunner.apply` (secrets.py): raises `ValueError` at once when
`check_mode` is set; otherwise connects and dispatches, raising `ValueError`
for an unknown state. `present` always reports `changed: True` on success
(encrypted values cannot be compared). -/
def secretsRunnerApply (state : String) (_name : String) (check_mode : Bool) :
    Except PyErr TransResult :=
  if check_mode then .error (.valueError "check_mode is not supported for this module")
  else if state = "absent" then .ok { changed := true }
  else if state = "present" then .ok { changed := true }
  else .error (.valueError ("unknown state: " ++ state))

/-- The outcome of one full module invocation as the caller sees it:
a successful structured result (`exit_json`), a structured failure
(`fail_json`), or an exception that escaped the runner uncaught. -/
inductive RunReport (α : Type) where
  | exitJson (result : α)
  | failJson (msg : String)
  | uncaught (err : PyErr)
  deriving DecidableEq, Repr

/-- `TaskRunner.__call__` (runner.py): runs `apply` inside a
`try`/`except GithubException` — a `GithubException` becomes
`fail_json(msg=...)`, a normal result becomes `exit_json`, and every other
exception type propagates out uncaught. -/
def taskRunnerCall {α : Type} (applyOutcome : Except PyErr α) : RunReport α :=
  match applyOutcome with
  | .ok r => .exitJson r
  | .error (PyErr.githubException status data) =>
      .failJson ("Github Error [" ++ toString status ++ "]: " ++ data)
  | .error e => .uncaught e

/-- An adapter whose created/edited `raw_data` is just the payload it was
given; used to instantiate adapter-generic theorems at concrete inputs. -/
def echoLabelAdapter : LabelAdapter :=
  { createLabel := fun p => p, editLabel := fun _ p => p }

/-- Repository analogue of `echoLabelAdapter`. -/
def echoRepoAdapter : RepoAdapter :=
  { createRepo := fun p => p, editRepo := fun _ p => p }

/-- A concrete desired label: scenario input `Descriptor(name=bug)` with the
default color and no description. -/
def labelCfgEx : LabelConfig := ⟨"bug", "cccccc", PyVal.vNone⟩

/-- A remote label `raw_data` carrying a non-null description. -/
def labelRemoteEx : PyDict :=
  [("name", PyVal.vStr "bug"), ("color", PyVal.vStr "cccccc"),
   ("description", PyVal.vStr "important")]

/-- A concrete desired repository using the create-only `auto_init` field. -/
def repoCfgEx : RepositoryConfig :=
  { name := "test", description := PyVal.vStr "demo",
    auto_init := PyVal.vBool true }

/-- A remote repository `raw_data` whose description mismatches
`repoCfgEx`. -/
def repoRemoteEx : PyDict :=
  [("name", PyVal.vStr "test"), ("description", PyVal.vStr "old")]

lemma dictLookup_configIter (l : PyDict) (k : String) :
    dictLookup (configIter l) k
      = (dictLookup l k).map (fun v =>
          if v = PyVal.vNone then PyVal.vNotSet
          else if v = PyVal.vEllipsis then PyVal.vNotSet
          else v) := by
  induction l with
  | nil => rfl
  | cons kv rest ih =>
      obtain ⟨k2, v⟩ := kv
      by_cases h : k2 = k
      · simp [configIter, dictLookup, h]
      · simpa [configIter, dictLookup, h] using ih

lemma dictLookup_dictPop_self (d : PyDict) (k : String) :
    dictLookup (dictPop d k) k = none := by
  induction d with
  | nil => rfl
  | cons kv rest ih =>
      by_cases h : kv.1 = k
      · simpa [dictPop, List.filter_cons, h] using ih
      · simpa [dictPop, List.filter_cons, h, dictLookup] using ih

lemma dictLookup_dictPop_ne (d : PyDict) (k kp : String) (h : ¬ k = kp) :
    dictLookup (dictPop d kp) k = dictLookup d k := by
  induction d with
  | nil => rfl
  | cons kv rest ih =>
      have hsym : ¬ kp = k := fun hc => h hc.symm
      by_cases h2 : kv.1 = kp
      · simpa [dictPop, List.filter_cons, h2, dictLookup, hsym] using ih
      · by_cases h4 : kv.1 = k
        · simp [dictPop, List.filter_cons, h2, dictLookup, h4, h]
        · simpa [dictPop, List.filter_cons, h2, dictLookup, h4] using ih

lemma dictLookup_of_mem (d : PyDict) (k : String) (v : PyVal)
    (hmem : (k, v) ∈ d) (hnd : (d.map Prod.fst).Nodup) :
    dictLookup d k = some v := by
  induction d with
  | nil => cases hmem
  | cons kv rest ih =>
      rcases List.mem_cons.mp hmem with heq | hmem2
      · rw [← heq]
        simp [dictLookup]
      · have hk : k ∈ rest.map Prod.fst :=
          List.mem_map.mpr ⟨(k, v), hmem2, rfl⟩
        have hne : ¬ kv.1 = k := by
          intro hc
          have := (List.nodup_cons.mp hnd).1
          rw [hc] at this
          exact this hk
        have hnd2 := (List.nodup_cons.mp hnd).2
        simpa [dictLookup, hne] using ih hmem2 hnd2

lemma configEqDict_of_forall (fields other : PyDict)
    (h : ∀ kv ∈ configIter fields, kv.2 ≠ PyVal.vNotSet →
         dictLookup other kv.1 = none ∨ dictLookup other kv.1 = some kv.2) :
    configEqDict fields other = true := by
  unfold configEqDict
  rw [List.all_eq_true]
  intro kv hkv
  by_cases hv : kv.2 = PyVal.vNotSet
  · simp [pyEq, hv]
  · rcases h kv hkv hv with hl | hl <;> simp [pyEq, hv, hl]

lemma configIter_keys (l : PyDict) :
    (configIter l).map Prod.fst = l.map Prod.fst := by
  induction l with
  | nil => rfl
  | cons kv rest ih => simp [configIter] at ih ⊢

lemma repoFields_keys_nodup (cfg : RepositoryConfig) :
    ((RepositoryConfig.fields cfg).map Prod.fst).Nodup := by
  simp [RepositoryConfig.fields]

lemma configEq_asdict_pop_auto_init (cfg : RepositoryConfig) :
    configEq cfg.fields
      (EqOther.ghObject (dictPop (configAsdict cfg.fields) "auto_init")) = true := by
  show configEqDict cfg.fields (dictPop (configAsdict cfg.fields) "auto_init") = true
  apply configEqDict_of_forall
  intro kv hkv hne
  by_cases hk : kv.1 = "auto_init"
  · left
    rw [hk]
    exact dictLookup_dictPop_self _ _
  · right
    rw [dictLookup_dictPop_ne _ _ _ hk]
    refine dictLookup_of_mem _ _ _ hkv ?_
    rw [configAsdict, configIter_keys]
    exact repoFields_keys_nodup cfg

lemma repoReplace_trace_shape (A : RepoAdapter) (cfg : RepositoryConfig)
    (remote : Option PyDict) (cm : Bool) :
    (repoReplace A cfg remote cm).1 = [] ∨
    (repoReplace A cfg remote cm).1
      = [AdapterCall.createCall (configAsdict cfg.fields)] ∨
    (repoReplace A cfg remote cm).1
      = [AdapterCall.editCall (dictPop (configAsdict cfg.fields) "auto_init")] ∨
    (repoReplace A cfg remote cm).1
      = [AdapterCall.createCall (configAsdict cfg.fields),
         AdapterCall.editCall (dictPop (configAsdict cfg.fields) "auto_init")] := by
  cases remote <;> cases cm <;>
    simp only [repoReplace] <;>
    split <;> (try split) <;> simp

/-- C7: a non-dry-run `replace` against an existing repository whose state
mismatches the Descriptor performs exactly one edit with the stripped payload
and reports `changed: true`; a second `replace` with the identical Descriptor,
when the remote state after the first edit equals that edited payload, makes
no adapter call and reports `changed: false`. -/
theorem c7_replace_idempotent (A : RepoAdapter) (cfg : RepositoryConfig)
    (r1 : PyDict)
    (hmm : configNe cfg.fields (EqOther.ghObject r1) = true) :
    repoReplace A cfg (some r1) false
      = ([AdapterCall.editCall (dictPop (configAsdict cfg.fields) "auto_init")],
         .ok { changed := true,
               resource := some (A.editRepo r1
                 (dictPop (configAsdict cfg.fields) "auto_init")) }) ∧
    repoReplace A cfg (some (dictPop (configAsdict cfg.fields) "auto_init")) false
      = ([], .ok { changed := false,
                   resource := some (dictPop (configAsdict cfg.fields) "auto_init") }) := by
  constructor
  · simp [repoReplace, hmm]
  · have h2 := configEq_asdict_pop_auto_init cfg
    simp [repoReplace, configNe, h2]

/-- C7 witness: the idempotence pair at a concrete mismatching repository. -/
theorem c7_replace_idempotent_witness :
    repoReplace echoRepoAdapter repoCfgEx (some repoRemoteEx) false
      = ([AdapterCall.editCall
            (dictPop (configAsdict (RepositoryConfig.fields repoCfgEx)) "auto_init")],
         .ok { changed := true,
               resource := some (echoRepoAdapter.editRepo repoRemoteEx
                 (dictPop (configAsdict (RepositoryConfig.fields repoCfgEx)) "auto_init")) }) ∧
    repoReplace echoRepoAdapter repoCfgEx
        (some (dictPop (configAsdict (RepositoryConfig.fields repoCfgEx)) "auto_init")) false
      = ([], .ok { changed := false,
                   resource := some (dictPop (configAsdict
                     (RepositoryConfig.fields repoCfgEx)) "auto_init") }) :=
  c7_replace_idempotent echoRepoAdapter repoCfgEx repoRemoteEx (by decide)

/-- C8: every edit call issued by `replace` carries a payload from which the
create-only `auto_init` key has been removed, while the payload of the create
path (`asdict`) does carry the `auto_init` key. -/
theorem c8_edit_payload_never_auto_init (A : RepoAdapter) (cfg : RepositoryConfig)
    (remote : Option PyDict) (cm : Bool) (p : PyDict)
    (h : AdapterCall.editCall p ∈ (repoReplace A cfg remote cm).1) :
    dictLookup p "auto_init" = none ∧
    ∃ v, dictLookup (configAsdict cfg.fields) "auto_init" = some v := by
  constructor
  · rcases repoReplace_trace_shape A cfg remote cm with hs | hs | hs | hs <;>
      rw [hs] at h <;> simp at h
    · rw [h]
      exact dictLookup_dictPop_self _ _
    · rw [h]
      exact dictLookup_dictPop_self _ _
  · refine ⟨(if cfg.auto_init = PyVal.vNone then PyVal.vNotSet
             else if cfg.auto_init = PyVal.vEllipsis then PyVal.vNotSet
             else cfg.auto_init), ?_⟩
    rw [configAsdict, dictLookup_configIter]
    rfl

/-- C8 witness: a concrete non-dry-run `replace` whose edit payload lacks
`auto_init` while its `asdict` payload carries the key. -/
theorem c8_edit_payload_never_auto_init_witness :
    dictLookup (dictPop (configAsdict (RepositoryConfig.fields repoCfgEx)) "auto_init")
        "auto_init" = none ∧
    ∃ v, dictLookup (configAsdict (RepositoryConfig.fields repoCfgEx)) "auto_init"
        = some v :=
  c8_edit_payload_never_auto_init echoRepoAdapter repoCfgEx (some repoRemoteEx) false
    (dictPop (configAsdict (RepositoryConfig.fields repoCfgEx)) "auto_init") (by decide)

/-- C9: the `absent` transition against a missing resource — label or
repository — reports `changed: false` and issues no adapter call at all, in
check mode and in normal mode alike. -/
theorem c9_absent_of_notfound (cm : Bool) :
    labelAbsent none cm = ([], { changed := false }) ∧
    repoAbsent none cm = ([], { changed := false }) :=
  ⟨rfl, rfl⟩

/-- C10: `__eq__` against a value that is neither a config, a `GithubObject`
nor a dict — `None` included — returns `True`, so `config != repo` with
`repo = None` is `False`, and a dry-run `replace` against a missing
repository never takes the edit branch (its call trace is empty). -/
theorem c10_eq_fallthrough_true (fields : PyDict) (A : RepoAdapter)
    (cfg : RepositoryConfig) :
    configEq fields EqOther.pyNone = true ∧
    configEq fields EqOther.otherValue = true ∧
    configNe cfg.fields EqOther.pyNone = false ∧
    (repoReplace A cfg none true).1 = [] :=
  ⟨rfl, rfl, rfl, rfl⟩

/-- C1 counterexample: a Descriptor whose `description` is `None`
(ExplicitNull) compared against a remote label whose `description` is the
non-null string `"important"` — the claim predicts a mismatch, but `__eq__`
returns `True`: the `None` field was mapped to `NotSet` by `__iter__` and
skipped. -/
theorem c1_explicit_null_ignored_counterexample :
    configEq (LabelConfig.fields labelCfgEx) (EqOther.ghObject labelRemoteEx) = true :=
  rfl

/-- C1 (amended): a field whose value is `None` is mapped to `NotSet` by
`__iter__` and therefore skipped by the comparison, exactly like an
`Ellipsis` field — deleting either kind of field from the config never
changes the result of `__eq__` against any dict. -/
theorem c1_none_field_never_compares (l1 l2 : PyDict) (k : String) (other : PyDict) :
    configEqDict (l1 ++ (k, PyVal.vNone) :: l2) other = configEqDict (l1 ++ l2) other ∧
    configEqDict (l1 ++ (k, PyVal.vEllipsis) :: l2) other
      = configEqDict (l1 ++ l2) other := by
  constructor <;> simp [configEqDict, configIter, pyEq]

/-- C2: the `archived` transition evaluated at both flag values outside
check mode — a repository that is not yet archived gets `changed: false` and
no edit, while an already-archived repository gets a redundant
`edit(archived=True)` and `changed: true`; the guard `if not repo.archived`
is inverted with respect to the documented intent. -/
theorem c2_archived_guard_inverted :
    repoArchived false false = ([], { changed := false }) ∧
    repoArchived true false
      = ([AdapterCall.editCall [("archived", PyVal.vBool true)]],
         { changed := true }) :=
  ⟨rfl, rfl⟩

/-- C3: the `present` transition under check mode with the resource missing
performs no create call but then dereferences `None.raw_data`, raising
`AttributeError` instead of returning a well-formed result — for the label
manager and the repository manager alike. -/
theorem c3_dryrun_present_notfound_raises :
    labelPresent echoLabelAdapter labelCfgEx none true
      = ([], .error (.attributeError "NoneType object has no attribute raw_data")) ∧
    repoPresent echoRepoAdapter repoCfgEx none true
      = ([], .error (.attributeError "NoneType object has no attribute raw_data")) :=
  ⟨rfl, rfl⟩

/-- C4 counterexample: an invocation whose Descriptor fails validation ends
in an uncaught `ValueError` — the task runner converts only
`GithubException` to a failure report, so this invocation does not produce
the structured report `{failed:true, msg:string}` but an uncaught crash. -/
theorem c4_validation_error_uncaught_counterexample :
    taskRunnerCall (labelRunnerApply echoLabelAdapter "present" "bug"
        (some "zzzzzz") PyVal.vNone none false).2
      = RunReport.uncaught (PyErr.valueError "color must be a valid hex color") :=
  rfl

/-- C4 (amended): `TaskRunner.__call__` converts exactly the
`GithubException` class to a structured failure report; a `ValueError` (from
validation or from the secrets runner under check mode) or an
`AttributeError` propagates out uncaught, and a normal result is reported via
`exit_json`. -/
theorem c4_only_github_exceptions_caught (s : Nat) (d m n : String)
    (r : TransResult) :
    taskRunnerCall (α := TransResult) (.error (PyErr.githubException s d))
      = RunReport.failJson ("Github Error [" ++ toString s ++ "]: " ++ d) ∧
    taskRunnerCall (α := TransResult) (.error (PyErr.valueError m))
      = RunReport.uncaught (PyErr.valueError m) ∧
    taskRunnerCall (α := TransResult) (.error (PyErr.attributeError m))
      = RunReport.uncaught (PyErr.attributeError m) ∧
    taskRunnerCall (.ok r) = RunReport.exitJson r ∧
    taskRunnerCall (secretsRunnerApply "present" n true)
      = RunReport.uncaught
          (PyErr.valueError "check_mode is not supported for this module") :=
  ⟨rfl, rfl, rfl, rfl, rfl⟩

/-- C5 counterexample: invoking the label runner with the invalid color
`"zzzzzz"` raises the validation `ValueError` only after the manager has
already connected and fetched the owning repository — the event trace at the
moment of the error is exactly `[netConnectRepo]`, refuting the claim that
validation precedes any network interaction. -/
theorem c5_validation_after_connect_counterexample :
    labelRunnerApply echoLabelAdapter "present" "bug" (some "zzzzzz")
        PyVal.vNone none true
      = ([RunEvent.netConnectRepo],
         .error (PyErr.valueError "color must be a valid hex color")) :=
  rfl

/-- C5 (amended): for every invocation whose color fails validation, the
`ValueError` is raised after the manager construction (which connects and
fetches the owning repository) but before any label-specific adapter call:
the trace is exactly `[netConnectRepo]`, with no find, create, edit or
delete event. -/
theorem c5_validation_before_label_calls (A : LabelAdapter) (state name c : String)
    (d : PyVal) (remote : Option PyDict) (cm : Bool)
    (hbad : labelColorMatch c = false) :
    labelRunnerApply A state name (some c) d remote cm
      = ([RunEvent.netConnectRepo],
         .error (PyErr.valueError "color must be a valid hex color")) := by
  simp [labelRunnerApply, mkLabelConfig, hbad]

/-- C5 witness: the amended ordering at the concrete invalid color. -/
theorem c5_validation_before_label_calls_witness :
    labelRunnerApply echoLabelAdapter "absent" "bug" (some "zzzzzz")
        PyVal.vNone none false
      = ([RunEvent.netConnectRepo],
         .error (PyErr.valueError "color must be a valid hex color")) :=
  c5_validation_before_label_calls echoLabelAdapter "absent" "bug" "zzzzzz"
    PyVal.vNone none false rfl

/-- C6 counterexample: the payload emitted for the Descriptor with an unset
(`None`) `description` still contains the key `description` — bound to the
`NotSet` sentinel — so the unset field is not absent from the emitted
mapping as the claim states. -/
theorem c6_unset_key_in_payload_counterexample :
    dictLookup (configAsdict (LabelConfig.fields labelCfgEx)) "description"
      = some PyVal.vNotSet :=
  rfl

/-- C6 (amended): `asdict` keeps every dataclass field as a key — the key
set of the payload equals the field set — and binds a field whose value is
`None` or `Ellipsis` to the `NotSet` sentinel (which the PyGithub layer then
refrains from transmitting), while any other value passes through
unchanged. -/
theorem c6_unset_fields_become_notset (l : PyDict) (k : String) (v : PyVal)
    (h : dictLookup l k = some v) :
    dictLookup (configAsdict l) k
      = some (if v = PyVal.vNone then PyVal.vNotSet
              else if v = PyVal.vEllipsis then PyVal.vNotSet
              else v) ∧
    (configAsdict l).map Prod.fst = l.map Prod.fst := by
  refine ⟨?_, configIter_keys l⟩
  rw [configAsdict, dictLookup_configIter, h]
  rfl

/-- C6 witness: the amended payload behaviour at the concrete label
Descriptor with unset description. -/
theorem c6_unset_fields_become_notset_witness :
    dictLookup (configAsdict (LabelConfig.fields labelCfgEx)) "description"
      = some (if PyVal.vNone = PyVal.vNone then PyVal.vNotSet
              else if PyVal.vNone = PyVal.vEllipsis then PyVal.vNotSet
              else PyVal.vNone) ∧
    (configAsdict (LabelConfig.fields labelCfgEx)).map Prod.fst
      = (LabelConfig.fields labelCfgEx).map Prod.fst :=
  c6_unset_fields_become_notset (LabelConfig.fields labelCfgEx) "description"
    PyVal.vNone rfl
